import Mathlib

/-!
Verification of the DID resolution and signing core of the
amikonet-signer-mcp-server repository.

Modelling conventions:
- JavaScript strings are modelled as lists of UTF-16 code units (`List Nat`);
  all strings handled by the program are ASCII, so one code unit per character.
- Byte arrays (`Uint8Array`) are modelled as `List Nat` with values below 256.
- Functions that can throw are modelled with `Except String`; the caught
  exception message is the thrown `Error`'s message.
- External cryptographic primitives (tweetnacl, noble ed25519, ethers signing
  and address recovery) are modelled as function parameters, since the
  repository treats them as black boxes.  The keccak-based EIP-55 checksum
  test inside `ethers.isAddress` is likewise abstracted as a `Bool`-valued
  parameter applied to the candidate string.
- Randomness (32 fresh random bytes for a nonce) is modelled by passing the
  random bytes as an explicit argument.
-/

set_option autoImplicit false

/-- Code units of a Lean string literal, used to write concrete JS strings. -/
def strCodes (s : String) : List Nat :=
  s.data.map Char.toNat

/-- JS `String.prototype.startsWith`: `jsStartsWith tag s` is `s.startsWith(tag)`. -/
def jsStartsWith : List Nat → List Nat → Bool
  | [], _ => true
  | _ :: _, [] => false
  | p :: ps, c :: cs => p == c && jsStartsWith ps cs

/-- JS `String.prototype.split(':')` (the separator used throughout the code). -/
def splitColon : List Nat → List (List Nat)
  | [] => [[]]
  | c :: rest =>
    if c = 58 then [] :: splitColon rest
    else
      match splitColon rest with
      | [] => [[c]]
      | h :: t => (c :: h) :: t

/-- A code-unit list containing no colon (code 58). -/
def noColon (l : List Nat) : Bool :=
  l.all (fun c => c ≠ 58)

/-- JS `toLowerCase` on one ASCII code unit. -/
def toLowerCode (c : Nat) : Nat :=
  if 65 ≤ c ∧ c ≤ 90 then c + 32 else c

/-- JS `String.prototype.toLowerCase` (ASCII range). -/
def toLowerL (l : List Nat) : List Nat :=
  l.map toLowerCode

/-- Decimal digit code unit. -/
def isDigitCode (c : Nat) : Bool :=
  decide (48 ≤ c ∧ c ≤ 57)

/-- Hexadecimal digit code unit (either case). -/
def isHexCode (c : Nat) : Bool :=
  decide ((48 ≤ c ∧ c ≤ 57) ∨ (97 ≤ c ∧ c ≤ 102) ∨ (65 ≤ c ∧ c ≤ 70))

/-- Lower-case hexadecimal digit code unit. -/
def isLowerHexCode (c : Nat) : Bool :=
  decide ((48 ≤ c ∧ c ≤ 57) ∨ (97 ≤ c ∧ c ≤ 102))

/-- Upper-case hex letter `A`-`F`. -/
def isUpperAF (c : Nat) : Bool :=
  decide (65 ≤ c ∧ c ≤ 70)

/-- Lower-case hex letter `a`-`f`. -/
def isLowerAF (c : Nat) : Bool :=
  decide (97 ≤ c ∧ c ≤ 102)

/-! ### base58 (the `bs58` package) -/

/-- Code units of the base58-btc alphabet used by `bs58`. -/
def b58Codes : List Nat :=
  strCodes "123456789ABCDEFGHJKLMNPQRSTUVWXYZabcdefghijkmnopqrstuvwxyz"

/-- Value of one base58 character; `none` for a character outside the alphabet
(`bs58.decode` throws on such a character). -/
def b58Value (c : Nat) : Option Nat :=
  b58Codes.findIdx? (fun d => d = c)

/-- Base58 digit values of a whole string, `none` if any character is invalid. -/
def b58DigitsOf : List Nat → Option (List Nat)
  | [] => some []
  | c :: rest =>
    match b58Value c, b58DigitsOf rest with
    | some v, some vs => some (v :: vs)
    | _, _ => none

/-- Number of leading `1` characters (code 49), each encoding a zero byte. -/
def countLeading49 : List Nat → Nat
  | 49 :: rest => countLeading49 rest + 1
  | _ => 0

/-- Number of leading zero bytes, each encoded as a `1` character. -/
def countLeadingZeroBytes : List Nat → Nat
  | 0 :: rest => countLeadingZeroBytes rest + 1
  | _ => 0

/-- Big-endian bytes of a natural number (empty for zero); fuel-based so that
the kernel can evaluate it. -/
def natToBytesBEAux : Nat → Nat → List Nat
  | 0, _ => []
  | fuel + 1, n => if n = 0 then [] else natToBytesBEAux fuel (n / 256) ++ [n % 256]

/-- Minimal big-endian byte representation of a natural number. -/
def natToBytesBE (n : Nat) : List Nat :=
  natToBytesBEAux n n

/-- Base58 digits of a natural number (empty for zero); fuel-based. -/
def natToB58Aux : Nat → Nat → List Nat
  | 0, _ => []
  | fuel + 1, n => if n = 0 then [] else natToB58Aux fuel (n / 58) ++ [b58Codes.getD (n % 58) 0]

/-- Model of `bs58.decode`: `none` models the thrown non-base58-character error. -/
def bs58Decode (l : List Nat) : Option (List Nat) :=
  match b58DigitsOf l with
  | none => none
  | some ds =>
    some (List.replicate (countLeading49 l) 0 ++
      natToBytesBE (ds.foldl (fun a d => a * 58 + d) 0))

/-- Model of `bs58.encode`. -/
def bs58Encode (bytes : List Nat) : List Nat :=
  List.replicate (countLeadingZeroBytes bytes) 49 ++
    natToB58Aux (bytes.foldl (fun a b => a * 256 + b) 0)
      (bytes.foldl (fun a b => a * 256 + b) 0)

/-! ### base64 (`Buffer.prototype.toString('base64')`) -/

/-- Code units of the standard base64 alphabet. -/
def b64Codes : List Nat :=
  strCodes "ABCDEFGHIJKLMNOPQRSTUVWXYZabcdefghijklmnopqrstuvwxyz0123456789+/"

/-- One base64 alphabet character. -/
def b64Char (n : Nat) : Nat :=
  b64Codes.getD n 0

/-- Standard base64 encoding with `=` padding (code 61). -/
def base64Encode : List Nat → List Nat
  | [] => []
  | [a] => [b64Char (a / 4), b64Char (a % 4 * 16), 61, 61]
  | [a, b] => [b64Char (a / 4), b64Char (a % 4 * 16 + b / 16), b64Char (b % 16 * 4), 61]
  | a :: b :: c :: rest =>
    b64Char (a / 4) :: b64Char (a % 4 * 16 + b / 16) ::
      b64Char (b % 16 * 4 + c / 64) :: b64Char (c % 64) :: base64Encode rest

/-! ### hex helpers (`crypto.ts` and `ethers`) -/

/-- Value of a hex digit code unit (0 for non-hex input; callers guard). -/
def hexDigitVal (c : Nat) : Nat :=
  if 48 ≤ c ∧ c ≤ 57 then c - 48
  else if 97 ≤ c ∧ c ≤ 102 then c - 87
  else if 65 ≤ c ∧ c ≤ 70 then c - 55
  else 0

/-- Lower-case hex digit code unit for a value below 16 (JS `toString(16)`). -/
def hexDigitCode (d : Nat) : Nat :=
  if d < 10 then 48 + d else 87 + d

/-- Hex digits of a positive natural number, fuel-based. -/
def natToHexAux : Nat → Nat → List Nat
  | 0, _ => []
  | fuel + 1, n => if n = 0 then [] else natToHexAux fuel (n / 16) ++ [hexDigitCode (n % 16)]

/-- JS `Number.prototype.toString(16)` for a natural number. -/
def natToHexCodes (n : Nat) : List Nat :=
  if n = 0 then [48] else natToHexAux n n

/-! ### `src/utils/crypto.ts` (Ed25519 "key" provider) -/

/-- JS `parseInt(slice, 16)` on a two-character slice, with `NaN` coerced to 0
by the `Uint8Array` store (whitespace/sign forms not modelled: the slices come
from hex strings). -/
def jsParseIntHex2 (a b : Nat) : Nat :=
  if isHexCode a then
    (if isHexCode b then 16 * hexDigitVal a + hexDigitVal b else hexDigitVal a)
  else 0

/-- Byte values produced by the `hexToBytes` loop over two-character slices. -/
def hexToBytesPairs : List Nat → List Nat
  | a :: b :: rest => jsParseIntHex2 a b :: hexToBytesPairs rest
  | _ => []

/-- Model of `hexToBytes` from `crypto.ts`: `new Uint8Array(hex.length / 2)` throws a
RangeError for odd-length input; otherwise each two-character slice is parsed. -/
def hexToBytes (l : List Nat) : Except String (List Nat) :=
  if l.length % 2 = 1 then .error "Invalid typed array length"
  else .ok (hexToBytesPairs l)

/-- Body of `verifySignature` before the `try/catch`; `edVerify` models
`ed25519.verifyAsync(signature, message, publicKey)`, and the message argument
is already the UTF-8 byte list produced by `TextEncoder`. -/
def verifySignatureE (edVerify : List Nat → List Nat → List Nat → Bool)
    (messageBytes signatureHex publicKeyHex : List Nat) : Except String Bool :=
  match hexToBytes signatureHex with
  | .error e => .error e
  | .ok signatureBytes =>
    match hexToBytes publicKeyHex with
    | .error e => .error e
    | .ok publicKeyBytes => .ok (edVerify signatureBytes messageBytes publicKeyBytes)

/-- Model of `verifySignature` from `crypto.ts`: any thrown error is caught and reported
as `false`. -/
def verifySignature (edVerify : List Nat → List Nat → List Nat → Bool)
    (messageBytes signatureHex publicKeyHex : List Nat) : Bool :=
  match verifySignatureE edVerify messageBytes signatureHex publicKeyHex with
  | .ok b => b
  | .error _ => false

/-- Code units of "did:key:z". -/
def didKeyZTag : List Nat := strCodes "did:key:z"

/-- Model of `extractPublicKeyFromDID` from `crypto.ts`: checks the `did:key:z` shape,
takes `did.slice(8)`, and requires the result to start with `6Mk`. -/
def extractPublicKeyFromDID (did : List Nat) : Option (List Nat) :=
  if ¬ jsStartsWith didKeyZTag did then none
  else
    let multibaseKey := did.drop 8
    if jsStartsWith (strCodes "6Mk") multibaseKey then some multibaseKey
    else none

/-- Model of `generateNonce` from `crypto.ts`: base64 of the 32 random bytes. -/
def generateNonce (randomBytes : List Nat) : List Nat :=
  base64Encode randomBytes

/-! ### `src/utils/solana-crypto.ts` -/

/-- Code units of "did:pkh:solana:". -/
def pkhSolanaTag : List Nat := strCodes "did:pkh:solana:"

/-- Model of `isValidSolanaAddress`: base58-decodes to exactly 32 bytes. -/
def isValidSolanaAddress (address : List Nat) : Bool :=
  match bs58Decode address with
  | some decoded => decoded.length == 32
  | none => false

/-- Model of `didToWalletAddress`: requires the `did:pkh:solana:` shape with exactly five
colon-separated segments and a valid address in the last one. -/
def didToWalletAddress (did : List Nat) : Except String (List Nat) :=
  if ¬ jsStartsWith pkhSolanaTag did then .error "Invalid Solana did:pkh format"
  else
    let parts := splitColon did
    if parts.length ≠ 5 then
      .error "Invalid did:pkh format. Expected did:pkh:solana:chainId:address"
    else
      let address := parts.getD 4 []
      if ¬ isValidSolanaAddress address then .error "Invalid Solana address in DID"
      else .ok address

/-- Model of `isValidSolanaDid`: `didToWalletAddress` succeeds (the extracted address is
then re-validated). -/
def isValidSolanaDid (did : List Nat) : Bool :=
  match didToWalletAddress did with
  | .ok address => isValidSolanaAddress address
  | .error _ => false

/-- Message of the invalid-key-length error thrown by `signSolanaMessage`. -/
def invalidSolanaKeyLengthMsg : String :=
  "Invalid private key length. Expected 64 bytes for Solana keypair."

/-- Model of `signSolanaMessage`; `naclSign` models `nacl.sign.detached(message, key)`
and the message argument is the UTF-8 byte list produced by `TextEncoder`. -/
def signSolanaMessage (naclSign : List Nat → List Nat → List Nat)
    (messageBytes privateKeyBase58 : List Nat) : Except String (List Nat) :=
  match bs58Decode privateKeyBase58 with
  | none => .error "Non-base58 character"
  | some privateKeyBytes =>
    if privateKeyBytes.length ≠ 64 then .error invalidSolanaKeyLengthMsg
    else .ok (bs58Encode (naclSign messageBytes privateKeyBytes))

/-- Body of `verifySolanaSignature` before the `try/catch`; `naclVerify` models
`nacl.sign.detached.verify(message, signature, publicKey)`. -/
def verifySolanaSignatureE (naclVerify : List Nat → List Nat → List Nat → Bool)
    (messageBytes signatureBase58 publicKeyBase58 : List Nat) : Except String Bool :=
  match bs58Decode signatureBase58 with
  | none => .error "Non-base58 character"
  | some signatureBytes =>
    match bs58Decode publicKeyBase58 with
    | none => .error "Non-base58 character"
    | some publicKeyBytes =>
      if publicKeyBytes.length ≠ 32 then .error "Invalid public key length. Expected 32 bytes."
      else if signatureBytes.length ≠ 64 then .error "Invalid signature length. Expected 64 bytes."
      else .ok (naclVerify messageBytes signatureBytes publicKeyBytes)

/-- Model of `verifySolanaSignature`: any thrown error is caught and reported as `false`. -/
def verifySolanaSignature (naclVerify : List Nat → List Nat → List Nat → Bool)
    (messageBytes signatureBase58 publicKeyBase58 : List Nat) : Bool :=
  match verifySolanaSignatureE naclVerify messageBytes signatureBase58 publicKeyBase58 with
  | .ok b => b
  | .error _ => false

/-- Model of `generateSolanaNonce`: base58 of the 32 random bytes. -/
def generateSolanaNonce (randomBytes : List Nat) : List Nat :=
  bs58Encode randomBytes

/-! ### `src/utils/evm-crypto.ts` -/

/-- The regex test inside `ethers.getAddress`: an optionally `0x`-prefixed run
of exactly 40 hex digits. -/
def matchesHex40 (l : List Nat) : Bool :=
  if l.take 2 = [48, 120] then (l.drop 2).length == 40 && (l.drop 2).all isHexCode
  else l.length == 40 && l.all isHexCode

/-- The mixed-case test inside `ethers.getAddress`: the string contains both an
upper-case and a lower-case hex letter, in which case the EIP-55 checksum must
match. -/
def mixedCaseHex (l : List Nat) : Bool :=
  l.any isUpperAF && l.any isLowerAF

/-- Model of `ethers.isAddress` (v6): the hex-address branch, with the
keccak-based EIP-55 checksum comparison abstracted as `checksumOk` (the rarely
used ICAP `XE..` branch is not modelled). -/
def isAddress (checksumOk : List Nat → Bool) (l : List Nat) : Bool :=
  if matchesHex40 l then
    (if mixedCaseHex l then checksumOk l else true)
  else false

/-- Model of `isValidEvmAddress`: `ethers.isAddress` under a `try/catch` that never
fires for string input. -/
def isValidEvmAddress (checksumOk : List Nat → Bool) (address : List Nat) : Bool :=
  isAddress checksumOk address

/-- Model of `verifyEvmSignature`; `recover` models `ethers.verifyMessage(message,
signature)`, which throws on recovery failure (`.error`). -/
def verifyEvmSignature (recover : List Nat → List Nat → Except String (List Nat))
    (message signature expectedAddress : List Nat) : Bool :=
  match recover message signature with
  | .error _ => false
  | .ok recoveredAddress => toLowerL expectedAddress == toLowerL recoveredAddress

/-- The address normalization shared by `addressToEthrDid` and
`addressToPkhDid`: lower-case, `0x`-prefixed. -/
def normalizeEvmAddress (address : List Nat) : List Nat :=
  if jsStartsWith (strCodes "0x") (toLowerL address) then toLowerL address
  else 48 :: 120 :: toLowerL address

/-- The `chainId?: number | string` parameter of `addressToEthrDid`. -/
inductive EvmChainId where
  | num (n : Nat)
  | str (s : List Nat)
deriving DecidableEq

/-- The test `chainId && chainId !== 1 && chainId !== '0x1'` (a number is never
strictly equal to a string in JS). -/
def chainIdCond : Option EvmChainId → Bool
  | none => false
  | some (.num n) => decide (n ≠ 0 ∧ n ≠ 1)
  | some (.str s) => decide (s ≠ [] ∧ s ≠ strCodes "0x1")

/-- The hex chain id inserted into the DID: a number is rendered as
`0x` + `toString(16)`, a string is used as-is. -/
def hexChainIdCodes : EvmChainId → List Nat
  | .num n => 48 :: 120 :: natToHexCodes n
  | .str s => s

/-- The test `network && network !== 'mainnet'`. -/
def networkCond : Option (List Nat) → Bool
  | none => false
  | some nw => decide (nw ≠ [] ∧ nw ≠ strCodes "mainnet")

/-- Code units of "did:ethr:". -/
def didEthrTag : List Nat := strCodes "did:ethr:"

/-- Code units of "did:pkh:eip155:". -/
def didPkhEip155Tag : List Nat := strCodes "did:pkh:eip155:"

/-- Model of `addressToEthrDid`. -/
def addressToEthrDid (checksumOk : List Nat → Bool) (address : List Nat)
    (chainId : Option EvmChainId) (network : Option (List Nat)) :
    Except String (List Nat) :=
  let normalizedAddress := normalizeEvmAddress address
  if ¬ isAddress checksumOk normalizedAddress then .error "Invalid Ethereum address"
  else if networkCond network then
    .ok (didEthrTag ++ network.getD [] ++ 58 :: normalizedAddress)
  else if chainIdCond chainId then
    .ok (didEthrTag ++ hexChainIdCodes (chainId.getD (.num 1)) ++ 58 :: normalizedAddress)
  else .ok (didEthrTag ++ normalizedAddress)

/-- Model of `didToAddress`. -/
def didToAddress (did : List Nat) : Except String (List Nat) :=
  if jsStartsWith didEthrTag did then
    let parts := splitColon did
    if parts.length = 3 then .ok (toLowerL (parts.getD 2 []))
    else if parts.length = 4 then .ok (toLowerL (parts.getD 3 []))
    else .error "Invalid did:ethr format"
  else if jsStartsWith didPkhEip155Tag did then
    let parts := splitColon did
    if parts.length ≠ 5 then
      .error "Invalid did:pkh:eip155 format. Expected did:pkh:eip155:chainId:address"
    else .ok (toLowerL (parts.getD 4 []))
  else .error "Unsupported DID format. Expected did:ethr or did:pkh:eip155"

/-- A JS number as returned by `parseInt`: an integer or `NaN`. -/
inductive JsNum where
  | nan
  | int (n : Int)
deriving DecidableEq

/-- JS whitespace skipped by `parseInt` (the common ASCII forms). -/
def isJsWhitespace (c : Nat) : Bool :=
  decide (c = 9 ∨ c = 10 ∨ c = 11 ∨ c = 12 ∨ c = 13 ∨ c = 32)

/-- Value of a run of decimal digit code units. -/
def digitsVal10 (ds : List Nat) : Nat :=
  ds.foldl (fun a c => a * 10 + (c - 48)) 0

/-- Value of a run of hex digit code units. -/
def digitsVal16 (ds : List Nat) : Nat :=
  ds.foldl (fun a c => a * 16 + hexDigitVal c) 0

/-- Model of `parseInt(s, 10)` after the optional sign: leading decimal digits, `NaN`
if there are none. -/
def jsParseIntCore10 (l : List Nat) (sign : Int) : JsNum :=
  let ds := l.takeWhile isDigitCode
  if ds = [] then .nan else .int (sign * (digitsVal10 ds : Int))

/-- JS `parseInt(s, 10)`. -/
def jsParseInt10 (l : List Nat) : JsNum :=
  match l.dropWhile isJsWhitespace with
  | 43 :: r => jsParseIntCore10 r 1
  | 45 :: r => jsParseIntCore10 r (-1)
  | r => jsParseIntCore10 r 1

/-- Model of `parseInt(s, 16)` after the optional sign: an optional `0x`/`0X` prefix,
then leading hex digits, `NaN` if there are none. -/
def jsParseIntCore16 (l : List Nat) (sign : Int) : JsNum :=
  let l2 := if l.take 2 = [48, 120] ∨ l.take 2 = [48, 88] then l.drop 2 else l
  let ds := l2.takeWhile isHexCode
  if ds = [] then .nan else .int (sign * (digitsVal16 ds : Int))

/-- JS `parseInt(s, 16)`. -/
def jsParseInt16 (l : List Nat) : JsNum :=
  match l.dropWhile isJsWhitespace with
  | 43 :: r => jsParseIntCore16 r 1
  | 45 :: r => jsParseIntCore16 r (-1)
  | r => jsParseIntCore16 r 1

/-- The `networkMap` object literal in `extractChainId`, as a plain finite map
(JS prototype-chain lookups are not modelled). -/
def networkMapLookup (l : List Nat) : Option Nat :=
  if l = strCodes "mainnet" then some 1
  else if l = strCodes "goerli" then some 5
  else if l = strCodes "sepolia" then some 11155111
  else if l = strCodes "polygon" then some 137
  else if l = strCodes "optimism" then some 10
  else if l = strCodes "arbitrum" then some 42161
  else none

/-- Model of `extractChainId`: `none` is JS `null`, `some .nan` is JS `NaN`. -/
def extractChainId (did : List Nat) : Option JsNum :=
  if jsStartsWith didEthrTag did then
    let parts := splitColon did
    if parts.length = 3 then some (.int 1)
    else if parts.length = 4 then
      let networkOrChainId := parts.getD 2 []
      if jsStartsWith (strCodes "0x") networkOrChainId then some (jsParseInt16 networkOrChainId)
      else
        match networkMapLookup networkOrChainId with
        | some v => some (.int (v : Int))
        | none => none
    else none
  else if jsStartsWith didPkhEip155Tag did then
    let parts := splitColon did
    if parts.length = 5 then some (jsParseInt10 (parts.getD 3 [])) else none
  else none

/-- Model of `isValidEvmDid`: `didToAddress` succeeds and the extracted address passes
`ethers.isAddress`. -/
def isValidEvmDid (checksumOk : List Nat → Bool) (did : List Nat) : Bool :=
  match didToAddress did with
  | .ok address => isAddress checksumOk address
  | .error _ => false

/-- Model of `generateEvmNonce`: base64 of the 32 random bytes. -/
def generateEvmNonce (randomBytes : List Nat) : List Nat :=
  base64Encode randomBytes

/-! ### `src/utils/did-helpers.ts` -/

/-- The closed provider enumeration. -/
inductive DidProvider where
  | key
  | solana
  | evm
deriving DecidableEq

/-- Code units of "did:key:". -/
def didKeyTag : List Nat := strCodes "did:key:"

/-- Model of `detectDidProvider`. -/
def detectDidProvider (checksumOk : List Nat → Bool) (did : List Nat) : DidProvider :=
  if jsStartsWith didKeyTag did then .key
  else if jsStartsWith pkhSolanaTag did then .solana
  else if jsStartsWith didEthrTag did || jsStartsWith didPkhEip155Tag did then .evm
  else if isValidSolanaAddress did then .solana
  else if isValidEvmAddress checksumOk did then .evm
  else .key

/-- The six environment variables read by `getCredentialsFromEnv`; `none`
models an unset variable. -/
structure EnvVars where
  agentDid : Option (List Nat)
  agentPrivateKey : Option (List Nat)
  agentSolanaDid : Option (List Nat)
  agentSolanaPrivateKey : Option (List Nat)
  agentEvmDid : Option (List Nat)
  agentEvmPrivateKey : Option (List Nat)
deriving DecidableEq

/-- JS truthiness of an env var: set and non-empty. -/
def envTruthy : Option (List Nat) → Bool
  | none => false
  | some s => decide (s ≠ [])

/-- JS `a || b` on env var values. -/
def jsOr (a b : Option (List Nat)) : Option (List Nat) :=
  if envTruthy a then a else b

/-- The resolved `{ did, privateKey, provider }` triple. -/
structure Credential where
  did : List Nat
  privateKey : List Nat
  provider : DidProvider
deriving DecidableEq

/-- The first (Solana) block of `getCredentialsFromEnv`, guarded by
`provider === 'solana' || !provider`. -/
def solanaCredFromEnv (env : EnvVars) (provider : Option DidProvider) : Option Credential :=
  if provider = some .solana ∨ provider = none then
    let solanaDid := jsOr env.agentSolanaDid env.agentDid
    let solanaKey := jsOr env.agentSolanaPrivateKey env.agentPrivateKey
    if envTruthy solanaDid ∧ envTruthy solanaKey ∧
        (isValidSolanaDid (solanaDid.getD []) ∨ isValidSolanaAddress (solanaDid.getD [])) then
      some ⟨solanaDid.getD [], solanaKey.getD [], .solana⟩
    else none
  else none

/-- The second (EVM) block of `getCredentialsFromEnv`. -/
def evmCredFromEnv (checksumOk : List Nat → Bool) (env : EnvVars)
    (provider : Option DidProvider) : Option Credential :=
  if provider = some .evm ∨ provider = none then
    let evmDid := jsOr env.agentEvmDid env.agentDid
    let evmKey := jsOr env.agentEvmPrivateKey env.agentPrivateKey
    if envTruthy evmDid ∧ envTruthy evmKey ∧
        (isValidEvmDid checksumOk (evmDid.getD []) ∨
          isValidEvmAddress checksumOk (evmDid.getD [])) then
      some ⟨evmDid.getD [], evmKey.getD [], .evm⟩
    else none
  else none

/-- The third (`did:key`) block of `getCredentialsFromEnv`. -/
def keyCredFromEnv (env : EnvVars) (provider : Option DidProvider) : Option Credential :=
  if provider = some .key ∨ provider = none then
    if envTruthy env.agentDid ∧ envTruthy env.agentPrivateKey ∧
        jsStartsWith didKeyTag (env.agentDid.getD []) then
      some ⟨env.agentDid.getD [], env.agentPrivateKey.getD [], .key⟩
    else none
  else none

/-- Model of `getCredentialsFromEnv`: the three blocks run in source order, the first
that returns a credential wins. -/
def getCredentialsFromEnv (checksumOk : List Nat → Bool) (env : EnvVars)
    (provider : Option DidProvider) : Option Credential :=
  match solanaCredFromEnv env provider with
  | some c => some c
  | none =>
    match evmCredFromEnv checksumOk env provider with
    | some c => some c
    | none => keyCredFromEnv env provider

/-! ### `src/lib/get-mcp-tools.ts` -/

/-- The nonce computed by the `generate_auth_payload` callback
(`const nonce = generateNonce()`): `generateNonce` is called unconditionally,
with no branching on the resolved credential's provider.  The provider argument
is kept so that statements can quantify over the credential's provider; the
body does not inspect it, exactly as in the source. -/
def generate_auth_payload_nonce (provider : DidProvider) (randomBytes : List Nat) : List Nat :=
  generateNonce randomBytes


/-! ### General lemmas about the string helpers -/

theorem jsStartsWith_self_append (p r : List Nat) : jsStartsWith p (p ++ r) = true := by
  induction p with
  | nil => rfl
  | cons c cs ih => simp [jsStartsWith, ih]

theorem jsStartsWith_exists_append {p s : List Nat} (h : jsStartsWith p s = true) :
    ∃ r, s = p ++ r := by
  induction p generalizing s with
  | nil => exact ⟨s, rfl⟩
  | cons c cs ih =>
    cases s with
    | nil => simp [jsStartsWith] at h
    | cons d ds =>
      simp only [jsStartsWith, Bool.and_eq_true, beq_iff_eq] at h
      obtain ⟨rfl, h2⟩ := h
      obtain ⟨r, rfl⟩ := ih h2
      exact ⟨r, rfl⟩

theorem splitColon_cons_colon (l : List Nat) : splitColon (58 :: l) = [] :: splitColon l := by
  simp [splitColon]

theorem noColon_cons {c : Nat} {r : List Nat} :
    noColon (c :: r) = true ↔ c ≠ 58 ∧ noColon r = true := by
  simp [noColon]

theorem splitColon_noColon {l : List Nat} (h : noColon l = true) : splitColon l = [l] := by
  induction l with
  | nil => rfl
  | cons c r ih =>
    rw [noColon_cons] at h
    simp [splitColon, h.1, ih h.2]

theorem splitColon_prepend {l1 : List Nat} (h1 : noColon l1 = true) (l2 h : List Nat)
    (t : List (List Nat)) (h2 : splitColon l2 = h :: t) :
    splitColon (l1 ++ l2) = (l1 ++ h) :: t := by
  induction l1 with
  | nil => simpa using h2
  | cons c r ih =>
    rw [noColon_cons] at h1
    simp [splitColon, h1.1, ih h1.2]

theorem splitColon_field {a : List Nat} (b : List Nat) (ha : noColon a = true) :
    splitColon (a ++ 58 :: b) = a :: splitColon b := by
  have h2 := splitColon_cons_colon b
  have h3 := splitColon_prepend ha (58 :: b) [] (splitColon b) h2
  simpa using h3

theorem didKeyTag_eq : didKeyTag = [100, 105, 100, 58, 107, 101, 121, 58] := by decide

theorem didKeyZTag_eq : didKeyZTag = [100, 105, 100, 58, 107, 101, 121, 58, 122] := by decide

theorem pkhSolanaTag_eq :
    pkhSolanaTag = [100, 105, 100, 58, 112, 107, 104, 58, 115, 111, 108, 97, 110, 97, 58] := by
  decide

theorem didEthrTag_eq : didEthrTag = [100, 105, 100, 58, 101, 116, 104, 114, 58] := by decide

theorem didPkhEip155Tag_eq :
    didPkhEip155Tag =
      [100, 105, 100, 58, 112, 107, 104, 58, 101, 105, 112, 49, 53, 53, 58] := by
  decide

theorem isValidSolanaAddress_iff {l : List Nat} :
    isValidSolanaAddress l = true ↔ ∃ b, bs58Decode l = some b ∧ b.length = 32 := by
  unfold isValidSolanaAddress
  cases h : bs58Decode l with
  | none => simp
  | some b => simp [h]

/-! ### C1: `extractPublicKeyFromDID` on `did:key:z6Mk...` inputs -/

/-- C1.  The spec states that for every DID of the form `did:key:z6Mk<suffix>`
the extraction strips `did:key:z` and returns the remaining multibase suffix,
non-null.  The code instead returns null for every such DID: `did.slice(8)`
removes only the eight characters of `did:key:`, so the remainder still starts
with `z` and the `startsWith('6Mk')` test can never succeed.  This theorem
evaluates the embedded function on the whole family of inputs the claim is
about and shows the result is always `none`. -/
theorem extractPublicKeyFromDID_z6Mk_none (su : List Nat) :
    extractPublicKeyFromDID (strCodes "did:key:z6Mk" ++ su) = none := by
  have h12 : strCodes "did:key:z6Mk" =
      [100, 105, 100, 58, 107, 101, 121, 58, 122, 54, 77, 107] := by decide
  have h3 : strCodes "6Mk" = [54, 77, 107] := by decide
  rw [h12]
  simp [extractPublicKeyFromDID, didKeyZTag_eq, h3, jsStartsWith]

/-! ### C2: the nonce in `generate_auth_payload` -/

/-- C2 counterexample.  The claim says a resolved `solana` credential's
auth-payload nonce is base58-encoded; on the code it is not: at a concrete
32-byte random draw the nonce produced for a `solana` credential is the base64
encoding of the bytes, which differs from their base58 encoding. -/
theorem generate_auth_payload_solana_nonce_not_base58 :
    generate_auth_payload_nonce .solana (List.replicate 32 0) =
        base64Encode (List.replicate 32 0) ∧
    generate_auth_payload_nonce .solana (List.replicate 32 0) ≠
        bs58Encode (List.replicate 32 0) :=
  ⟨rfl, by decide⟩

/-- C2 amended.  For every resolved credential, the nonce placed in the
authentication payload by `generate_auth_payload` is the base64 encoding of the
32 random bytes regardless of the credential's provider — for `key` and `evm`
as the claim says, but also for `solana` (the callback calls `generateNonce`
unconditionally; the base58 `generateSolanaNonce` helper exists but is not
called on this path). -/
theorem generate_auth_payload_nonce_base64 (provider : DidProvider)
    (randomBytes : List Nat) (h32 : randomBytes.length = 32) :
    generate_auth_payload_nonce provider randomBytes = base64Encode randomBytes :=
  rfl

/-- Witness for the amended C2 at a concrete 32-byte input, at the provider the
original claim fails on. -/
theorem generate_auth_payload_nonce_base64_witness :
    generate_auth_payload_nonce .solana (List.replicate 32 0) =
      base64Encode (List.replicate 32 0) :=
  generate_auth_payload_nonce_base64 .solana (List.replicate 32 0) (by decide)

/-! ### C8: the spec's concrete detection examples -/

/-- C8 counterexample.  The spec example `detect("0x742d35Cc6634C0532925a3b844
Bc9e7595f0bEb") = evm` is false on the code: that string has only 39 hex digits
after `0x`, so `ethers.isAddress` rejects it (even with the checksum test
forced to accept), and detection falls through to the `key` default. -/
theorem detect_truncated_address_not_evm :
    detectDidProvider (fun _ => true)
      (strCodes "0x742d35Cc6634C0532925a3b844Bc9e7595f0bEb") ≠ DidProvider.evm := by
  decide

/-- C8 amended.  `detect("0x742d35Cc6634C0532925a3b844Bc9e7595f0bEb")` is `key`
(the 39-hex-digit string is not a valid EVM address, so the documented fallback
applies), and `detect("garbage")` is `key`. -/
theorem detect_examples_amended :
    detectDidProvider (fun _ => true)
        (strCodes "0x742d35Cc6634C0532925a3b844Bc9e7595f0bEb") = DidProvider.key ∧
    detectDidProvider (fun _ => true) (strCodes "garbage") = DidProvider.key := by
  exact ⟨by decide, by decide⟩

/-! ### C10: `extractChainId` on `did:pkh:eip155:` DIDs -/

/-- C10.  For a DID starting with `did:pkh:eip155:`, `extractChainId` returns
`parseInt(parts[3], 10)` whenever the DID has exactly five colon-separated
segments — with no validation of the segment, so a non-numeric segment yields
`NaN` rather than `null` or an error — and returns `null` for any other
segment count. -/
theorem extractChainId_eip155_segments (did : List Nat)
    (h : jsStartsWith didPkhEip155Tag did = true) :
    ((splitColon did).length = 5 →
      extractChainId did = some (jsParseInt10 ((splitColon did).getD 3 []))) ∧
    ((splitColon did).length ≠ 5 → extractChainId did = none) := by
  obtain ⟨r, rfl⟩ := jsStartsWith_exists_append h
  have hethr : jsStartsWith didEthrTag (didPkhEip155Tag ++ r) = false := by
    rw [didEthrTag_eq, didPkhEip155Tag_eq]
    simp [jsStartsWith]
  constructor
  · intro h5
    simp [extractChainId, hethr, h, h5]
  · intro h5
    simp [extractChainId, hethr, h, h5]

/-- Witness for C10: a non-numeric chain-id segment yields `NaN`. -/
theorem extractChainId_eip155_segments_witness :
    extractChainId (strCodes "did:pkh:eip155:abc:0xdead") = some JsNum.nan := by
  have h := (extractChainId_eip155_segments (strCodes "did:pkh:eip155:abc:0xdead")
    (by decide)).1 (by decide)
  rw [h]
  decide

/-! ### C3: `detectDidProvider` decision order -/

/-- C3.  `detectDidProvider` is total (it is a Lean function into the closed
`DidProvider` enumeration, so no error can be raised) and decides by first
match in the documented order: `did:key:` gives `key`, then `did:pkh:solana:`
gives `solana`, then `did:ethr:`/`did:pkh:eip155:` give `evm`, then a string
base58-decoding to exactly 32 bytes gives `solana`, then a syntactically valid
EVM address gives `evm`, and otherwise the result is `key`.  The theorem holds
for every checksum oracle substituted for the keccak-based EIP-55 test. -/
theorem detectDidProvider_first_match (checksumOk : List Nat → Bool) (did : List Nat) :
    (jsStartsWith didKeyTag did = true →
      detectDidProvider checksumOk did = .key) ∧
    (jsStartsWith didKeyTag did = false → jsStartsWith pkhSolanaTag did = true →
      detectDidProvider checksumOk did = .solana) ∧
    (jsStartsWith didKeyTag did = false → jsStartsWith pkhSolanaTag did = false →
      (jsStartsWith didEthrTag did = true ∨ jsStartsWith didPkhEip155Tag did = true) →
      detectDidProvider checksumOk did = .evm) ∧
    (jsStartsWith didKeyTag did = false → jsStartsWith pkhSolanaTag did = false →
      jsStartsWith didEthrTag did = false → jsStartsWith didPkhEip155Tag did = false →
      (∃ b, bs58Decode did = some b ∧ b.length = 32) →
      detectDidProvider checksumOk did = .solana) ∧
    (jsStartsWith didKeyTag did = false → jsStartsWith pkhSolanaTag did = false →
      jsStartsWith didEthrTag did = false → jsStartsWith didPkhEip155Tag did = false →
      ¬ (∃ b, bs58Decode did = some b ∧ b.length = 32) →
      isAddress checksumOk did = true →
      detectDidProvider checksumOk did = .evm) ∧
    (jsStartsWith didKeyTag did = false → jsStartsWith pkhSolanaTag did = false →
      jsStartsWith didEthrTag did = false → jsStartsWith didPkhEip155Tag did = false →
      ¬ (∃ b, bs58Decode did = some b ∧ b.length = 32) →
      isAddress checksumOk did = false →
      detectDidProvider checksumOk did = .key) := by
  refine ⟨?_, ?_, ?_, ?_, ?_, ?_⟩
  · intro h1
    simp [detectDidProvider, h1]
  · intro h1 h2
    simp [detectDidProvider, h1, h2]
  · intro h1 h2 h3
    rcases h3 with h3 | h3 <;> simp [detectDidProvider, h1, h2, h3]
  · intro h1 h2 h3 h4 h5
    have hsol : isValidSolanaAddress did = true := isValidSolanaAddress_iff.mpr h5
    simp [detectDidProvider, h1, h2, h3, h4, hsol]
  · intro h1 h2 h3 h4 h5 h6
    have hsol : isValidSolanaAddress did = false := by
      rw [← Bool.not_eq_true]
      intro hc
      exact h5 (isValidSolanaAddress_iff.mp hc)
    simp [detectDidProvider, isValidEvmAddress, h1, h2, h3, h4, hsol, h6]
  · intro h1 h2 h3 h4 h5 h6
    have hsol : isValidSolanaAddress did = false := by
      rw [← Bool.not_eq_true]
      intro hc
      exact h5 (isValidSolanaAddress_iff.mp hc)
    simp [detectDidProvider, isValidEvmAddress, h1, h2, h3, h4, hsol, h6]

/-- Witness for C3: each of the six branches exercised at a concrete string. -/
theorem detectDidProvider_first_match_witness :
    detectDidProvider (fun _ => false) (strCodes "did:key:zAbc") = .key ∧
    detectDidProvider (fun _ => false) (strCodes "did:pkh:solana:x:y") = .solana ∧
    detectDidProvider (fun _ => false) (strCodes "did:ethr:0xdead") = .evm ∧
    detectDidProvider (fun _ => false)
      (strCodes "11111111111111111111111111111111") = .solana ∧
    detectDidProvider (fun _ => false)
      (strCodes "0xabcdefabcdef0123456789abcdefabcdef012345") = .evm ∧
    detectDidProvider (fun _ => false) (strCodes "garbage2") = .key := by
  refine ⟨?_, ?_, ?_, ?_, ?_, ?_⟩
  · exact (detectDidProvider_first_match (fun _ => false) _).1 (by decide)
  · exact (detectDidProvider_first_match (fun _ => false) _).2.1 (by decide) (by decide)
  · exact (detectDidProvider_first_match (fun _ => false) _).2.2.1 (by decide) (by decide)
      (Or.inl (by decide))
  · exact (detectDidProvider_first_match (fun _ => false) _).2.2.2.1 (by decide) (by decide)
      (by decide) (by decide) ⟨List.replicate 32 0, by decide, by decide⟩
  · exact (detectDidProvider_first_match (fun _ => false) _).2.2.2.2.1 (by decide) (by decide)
      (by decide) (by decide) (by decide) (by decide)
  · exact (detectDidProvider_first_match (fun _ => false) _).2.2.2.2.2 (by decide) (by decide)
      (by decide) (by decide) (by decide) (by decide)

/-! ### Characterizations of the credential resolver blocks -/

theorem envTruthy_getD {o : Option (List Nat)} (h : envTruthy o = true) : o.getD [] ≠ [] := by
  cases o with
  | none => simp [envTruthy] at h
  | some s => simpa [envTruthy] using h

theorem solanaCredFromEnv_eq (env : EnvVars) (hint : Option DidProvider) :
    solanaCredFromEnv env hint =
      if (hint = some DidProvider.solana ∨ hint = none) ∧
          envTruthy (jsOr env.agentSolanaDid env.agentDid) ∧
          envTruthy (jsOr env.agentSolanaPrivateKey env.agentPrivateKey) ∧
          (isValidSolanaDid ((jsOr env.agentSolanaDid env.agentDid).getD []) ∨
            isValidSolanaAddress ((jsOr env.agentSolanaDid env.agentDid).getD [])) then
        some ⟨(jsOr env.agentSolanaDid env.agentDid).getD [],
              (jsOr env.agentSolanaPrivateKey env.agentPrivateKey).getD [], .solana⟩
      else none := by
  by_cases hg : hint = some DidProvider.solana ∨ hint = none
  · by_cases hc : envTruthy (jsOr env.agentSolanaDid env.agentDid) ∧
        envTruthy (jsOr env.agentSolanaPrivateKey env.agentPrivateKey) ∧
        (isValidSolanaDid ((jsOr env.agentSolanaDid env.agentDid).getD []) ∨
          isValidSolanaAddress ((jsOr env.agentSolanaDid env.agentDid).getD [])) <;>
      simp [solanaCredFromEnv, hg, hc]
  · simp [solanaCredFromEnv, hg]

theorem evmCredFromEnv_eq (checksumOk : List Nat → Bool) (env : EnvVars)
    (hint : Option DidProvider) :
    evmCredFromEnv checksumOk env hint =
      if (hint = some DidProvider.evm ∨ hint = none) ∧
          envTruthy (jsOr env.agentEvmDid env.agentDid) ∧
          envTruthy (jsOr env.agentEvmPrivateKey env.agentPrivateKey) ∧
          (isValidEvmDid checksumOk ((jsOr env.agentEvmDid env.agentDid).getD []) ∨
            isValidEvmAddress checksumOk ((jsOr env.agentEvmDid env.agentDid).getD [])) then
        some ⟨(jsOr env.agentEvmDid env.agentDid).getD [],
              (jsOr env.agentEvmPrivateKey env.agentPrivateKey).getD [], .evm⟩
      else none := by
  by_cases hg : hint = some DidProvider.evm ∨ hint = none
  · by_cases hc : envTruthy (jsOr env.agentEvmDid env.agentDid) ∧
        envTruthy (jsOr env.agentEvmPrivateKey env.agentPrivateKey) ∧
        (isValidEvmDid checksumOk ((jsOr env.agentEvmDid env.agentDid).getD []) ∨
          isValidEvmAddress checksumOk ((jsOr env.agentEvmDid env.agentDid).getD [])) <;>
      simp [evmCredFromEnv, hg, hc]
  · simp [evmCredFromEnv, hg]

theorem keyCredFromEnv_eq (env : EnvVars) (hint : Option DidProvider) :
    keyCredFromEnv env hint =
      if (hint = some DidProvider.key ∨ hint = none) ∧
          envTruthy env.agentDid ∧ envTruthy env.agentPrivateKey ∧
          jsStartsWith didKeyTag (env.agentDid.getD []) then
        some ⟨env.agentDid.getD [], env.agentPrivateKey.getD [], .key⟩
      else none := by
  by_cases hg : hint = some DidProvider.key ∨ hint = none
  · by_cases hc : envTruthy env.agentDid ∧ envTruthy env.agentPrivateKey ∧
        jsStartsWith didKeyTag (env.agentDid.getD []) <;>
      simp [keyCredFromEnv, hg, hc]
  · simp [keyCredFromEnv, hg]

theorem getCredentialsFromEnv_eq (checksumOk : List Nat → Bool) (env : EnvVars)
    (hint : Option DidProvider) :
    getCredentialsFromEnv checksumOk env hint =
      if (hint = some DidProvider.solana ∨ hint = none) ∧
          envTruthy (jsOr env.agentSolanaDid env.agentDid) ∧
          envTruthy (jsOr env.agentSolanaPrivateKey env.agentPrivateKey) ∧
          (isValidSolanaDid ((jsOr env.agentSolanaDid env.agentDid).getD []) ∨
            isValidSolanaAddress ((jsOr env.agentSolanaDid env.agentDid).getD [])) then
        some ⟨(jsOr env.agentSolanaDid env.agentDid).getD [],
              (jsOr env.agentSolanaPrivateKey env.agentPrivateKey).getD [], .solana⟩
      else if (hint = some DidProvider.evm ∨ hint = none) ∧
          envTruthy (jsOr env.agentEvmDid env.agentDid) ∧
          envTruthy (jsOr env.agentEvmPrivateKey env.agentPrivateKey) ∧
          (isValidEvmDid checksumOk ((jsOr env.agentEvmDid env.agentDid).getD []) ∨
            isValidEvmAddress checksumOk ((jsOr env.agentEvmDid env.agentDid).getD [])) then
        some ⟨(jsOr env.agentEvmDid env.agentDid).getD [],
              (jsOr env.agentEvmPrivateKey env.agentPrivateKey).getD [], .evm⟩
      else if (hint = some DidProvider.key ∨ hint = none) ∧
          envTruthy env.agentDid ∧ envTruthy env.agentPrivateKey ∧
          jsStartsWith didKeyTag (env.agentDid.getD []) then
        some ⟨env.agentDid.getD [], env.agentPrivateKey.getD [], .key⟩
      else none := by
  unfold getCredentialsFromEnv
  rw [solanaCredFromEnv_eq, evmCredFromEnv_eq, keyCredFromEnv_eq]
  by_cases hS : (hint = some DidProvider.solana ∨ hint = none) ∧
      envTruthy (jsOr env.agentSolanaDid env.agentDid) ∧
      envTruthy (jsOr env.agentSolanaPrivateKey env.agentPrivateKey) ∧
      (isValidSolanaDid ((jsOr env.agentSolanaDid env.agentDid).getD []) ∨
        isValidSolanaAddress ((jsOr env.agentSolanaDid env.agentDid).getD []))
  · simp [hS]
  · by_cases hE : (hint = some DidProvider.evm ∨ hint = none) ∧
        envTruthy (jsOr env.agentEvmDid env.agentDid) ∧
        envTruthy (jsOr env.agentEvmPrivateKey env.agentPrivateKey) ∧
        (isValidEvmDid checksumOk ((jsOr env.agentEvmDid env.agentDid).getD []) ∨
          isValidEvmAddress checksumOk ((jsOr env.agentEvmDid env.agentDid).getD [])) <;>
      simp [hS, hE]

/-! ### C4: resolver order and the generic-variable Solana scenario -/

/-- C4.  `getCredentialsFromEnv` checks Solana, then EVM, then `did:key`, each
block gated on the hint being unset or matching, with the first satisfied block
winning and `none` returned when no block is satisfied; and in an environment
holding only a generic `AGENT_DID` that is a valid Solana `did:pkh` plus a
generic `AGENT_PRIVATE_KEY`, resolution without a hint yields a `solana`
credential. -/
theorem getCredentialsFromEnv_resolution_order :
    (∀ (checksumOk : List Nat → Bool) (env : EnvVars) (hint : Option DidProvider),
      getCredentialsFromEnv checksumOk env hint =
        if (hint = some DidProvider.solana ∨ hint = none) ∧
            envTruthy (jsOr env.agentSolanaDid env.agentDid) ∧
            envTruthy (jsOr env.agentSolanaPrivateKey env.agentPrivateKey) ∧
            (isValidSolanaDid ((jsOr env.agentSolanaDid env.agentDid).getD []) ∨
              isValidSolanaAddress ((jsOr env.agentSolanaDid env.agentDid).getD [])) then
          some ⟨(jsOr env.agentSolanaDid env.agentDid).getD [],
                (jsOr env.agentSolanaPrivateKey env.agentPrivateKey).getD [], .solana⟩
        else if (hint = some DidProvider.evm ∨ hint = none) ∧
            envTruthy (jsOr env.agentEvmDid env.agentDid) ∧
            envTruthy (jsOr env.agentEvmPrivateKey env.agentPrivateKey) ∧
            (isValidEvmDid checksumOk ((jsOr env.agentEvmDid env.agentDid).getD []) ∨
              isValidEvmAddress checksumOk ((jsOr env.agentEvmDid env.agentDid).getD [])) then
          some ⟨(jsOr env.agentEvmDid env.agentDid).getD [],
                (jsOr env.agentEvmPrivateKey env.agentPrivateKey).getD [], .evm⟩
        else if (hint = some DidProvider.key ∨ hint = none) ∧
            envTruthy env.agentDid ∧ envTruthy env.agentPrivateKey ∧
            jsStartsWith didKeyTag (env.agentDid.getD []) then
          some ⟨env.agentDid.getD [], env.agentPrivateKey.getD [], .key⟩
        else none) ∧
    getCredentialsFromEnv (fun _ => false)
        ⟨some (strCodes
            "did:pkh:solana:4sGjMW1sUnHzSxGspuhpqLDx6wiyjNtZ:11111111111111111111111111111111"),
          some (strCodes
            "1111111111111111111111111111111111111111111111111111111111111111"),
          none, none, none, none⟩ none =
      some ⟨strCodes
          "did:pkh:solana:4sGjMW1sUnHzSxGspuhpqLDx6wiyjNtZ:11111111111111111111111111111111",
        strCodes "1111111111111111111111111111111111111111111111111111111111111111",
        DidProvider.solana⟩ := by
  constructor
  · intro checksumOk env hint
    exact getCredentialsFromEnv_eq checksumOk env hint
  · decide

/-! ### C9: the resolver validates only the DID, never the private key -/

/-- C9.  Whenever `getCredentialsFromEnv` returns a credential, the only
validated component is the DID (Solana DID-or-address validity, EVM
DID-or-address validity, or the `did:key:` prefix); the private key was only
required to be a non-empty string.  Concretely: (a) a returned credential's
DID satisfies its provider's DID test and its private key is merely non-empty;
and (b) replacing every private-key environment variable by any other
non-empty string leaves the result identical except for the `privateKey`
field, so no decoding, length, or format check is applied to the key. -/
theorem getCredentialsFromEnv_no_key_validation :
    (∀ (checksumOk : List Nat → Bool) (env : EnvVars) (hint : Option DidProvider)
        (c : Credential), getCredentialsFromEnv checksumOk env hint = some c →
      c.privateKey ≠ [] ∧
      (c.provider = .solana →
        (isValidSolanaDid c.did = true ∨ isValidSolanaAddress c.did = true)) ∧
      (c.provider = .evm →
        (isValidEvmDid checksumOk c.did = true ∨
          isValidEvmAddress checksumOk c.did = true)) ∧
      (c.provider = .key → jsStartsWith didKeyTag c.did = true)) ∧
    (∀ (checksumOk : List Nat → Bool) (d1 d2 d3 : Option (List Nat))
        (hint : Option DidProvider) (k k' : List Nat), k ≠ [] → k' ≠ [] →
      getCredentialsFromEnv checksumOk ⟨d1, some k, d2, some k, d3, some k⟩ hint =
        (getCredentialsFromEnv checksumOk ⟨d1, some k', d2, some k', d3, some k'⟩ hint).map
          (fun c => ⟨c.did, k, c.provider⟩)) := by
  constructor
  · intro checksumOk env hint c h
    rw [getCredentialsFromEnv_eq] at h
    split_ifs at h with hS hE hK
    · rw [Option.some_inj] at h
      subst h
      refine ⟨envTruthy_getD hS.2.2.1, fun _ => hS.2.2.2, fun hp => ?_, fun hp => ?_⟩ <;>
        simp at hp
    · rw [Option.some_inj] at h
      subst h
      refine ⟨envTruthy_getD hE.2.2.1, fun hp => ?_, fun _ => hE.2.2.2, fun hp => ?_⟩ <;>
        simp at hp
    · rw [Option.some_inj] at h
      subst h
      refine ⟨envTruthy_getD hK.2.2.1, fun hp => ?_, fun hp => ?_, fun _ => hK.2.2.2⟩ <;>
        simp at hp
  · intro checksumOk d1 d2 d3 hint k k' hk hk'
    have htk : envTruthy (some k) = true := by simp [envTruthy, hk]
    have htk' : envTruthy (some k') = true := by simp [envTruthy, hk']
    rw [getCredentialsFromEnv_eq, getCredentialsFromEnv_eq]
    simp only [jsOr, htk, htk', if_pos]
    split_ifs <;> simp_all [envTruthy]

/-- Witness for C9: a syntactically garbage private key is accepted verbatim. -/
theorem getCredentialsFromEnv_no_key_validation_witness :
    getCredentialsFromEnv (fun _ => false)
        ⟨some (strCodes
            "did:pkh:solana:4sGjMW1sUnHzSxGspuhpqLDx6wiyjNtZ:11111111111111111111111111111111"),
          some (strCodes "not a key at all!"), none, some (strCodes "not a key at all!"),
          none, some (strCodes "not a key at all!")⟩ none =
      (getCredentialsFromEnv (fun _ => false)
          ⟨some (strCodes
              "did:pkh:solana:4sGjMW1sUnHzSxGspuhpqLDx6wiyjNtZ:11111111111111111111111111111111"),
            some (strCodes "x"), none, some (strCodes "x"), none, some (strCodes "x")⟩ none).map
        (fun c => ⟨c.did, strCodes "not a key at all!", c.provider⟩) :=
  getCredentialsFromEnv_no_key_validation.2 (fun _ => false)
    (some (strCodes
      "did:pkh:solana:4sGjMW1sUnHzSxGspuhpqLDx6wiyjNtZ:11111111111111111111111111111111"))
    none none none (strCodes "not a key at all!") (strCodes "x") (by decide) (by decide)

/-! ### C6: verification returns a boolean and swallows every failure -/

/-- C6.  Each provider's verify operation is a total Boolean function in this
embedding (so no exception can escape), and every failure of its fallible body
— base58 decode failure, wrong public-key or signature length, odd-length hex
material, or EVM address-recovery failure — is reported as `false`: the
`try/catch` maps every `.error` of the body to `false` and is the identity on
`.ok` results.  The statement quantifies over the external primitives. -/
theorem verify_reports_failure_as_false :
    (∀ (edVerify : List Nat → List Nat → List Nat → Bool) (m s p : List Nat) (e : String),
      verifySignatureE edVerify m s p = .error e → verifySignature edVerify m s p = false) ∧
    (∀ (edVerify : List Nat → List Nat → List Nat → Bool) (m s p : List Nat) (b : Bool),
      verifySignatureE edVerify m s p = .ok b → verifySignature edVerify m s p = b) ∧
    (∀ (edVerify : List Nat → List Nat → List Nat → Bool) (m s p : List Nat),
      s.length % 2 = 1 → verifySignature edVerify m s p = false) ∧
    (∀ (naclVerify : List Nat → List Nat → List Nat → Bool) (m s p : List Nat) (e : String),
      verifySolanaSignatureE naclVerify m s p = .error e →
        verifySolanaSignature naclVerify m s p = false) ∧
    (∀ (naclVerify : List Nat → List Nat → List Nat → Bool) (m s p : List Nat) (b : Bool),
      verifySolanaSignatureE naclVerify m s p = .ok b →
        verifySolanaSignature naclVerify m s p = b) ∧
    (∀ (naclVerify : List Nat → List Nat → List Nat → Bool) (m s p : List Nat),
      bs58Decode s = none ∨ bs58Decode p = none →
        verifySolanaSignature naclVerify m s p = false) ∧
    (∀ (naclVerify : List Nat → List Nat → List Nat → Bool) (m s p sb pb : List Nat),
      bs58Decode s = some sb → bs58Decode p = some pb →
        pb.length ≠ 32 ∨ sb.length ≠ 64 →
        verifySolanaSignature naclVerify m s p = false) ∧
    (∀ (recover : List Nat → List Nat → Except String (List Nat)) (m s a : List Nat)
        (e : String), recover m s = .error e → verifyEvmSignature recover m s a = false) := by
  refine ⟨?_, ?_, ?_, ?_, ?_, ?_, ?_, ?_⟩
  · intro edVerify m s p e h
    simp [verifySignature, h]
  · intro edVerify m s p b h
    simp [verifySignature, h]
  · intro edVerify m s p hodd
    simp [verifySignature, verifySignatureE, hexToBytes, hodd]
  · intro naclVerify m s p e h
    simp [verifySolanaSignature, h]
  · intro naclVerify m s p b h
    simp [verifySolanaSignature, h]
  · intro naclVerify m s p h
    rcases h with h | h
    · simp [verifySolanaSignature, verifySolanaSignatureE, h]
    · cases hs : bs58Decode s with
      | none => simp [verifySolanaSignature, verifySolanaSignatureE, hs]
      | some sb => simp [verifySolanaSignature, verifySolanaSignatureE, hs, h]
  · intro naclVerify m s p sb pb hs hp hlen
    rcases hlen with hlen | hlen <;>
      simp [verifySolanaSignature, verifySolanaSignatureE, hs, hp, hlen] <;>
      split_ifs <;> simp_all
  · intro recover m s a e h
    simp [verifyEvmSignature, h]

/-- Witness for C6: concrete failures of each kind evaluate to `false` even
with primitives that always accept. -/
theorem verify_reports_failure_as_false_witness :
    verifySignature (fun _ _ _ => true) [] [97] [] = false ∧
    verifySolanaSignature (fun _ _ _ => true) [] (strCodes "0") (strCodes "1") = false ∧
    verifySolanaSignature (fun _ _ _ => true) [] (strCodes "11")
      (strCodes "11111111111111111111111111111111") = false ∧
    verifyEvmSignature (fun _ _ => .error "could not recover") [] [] (strCodes "0xdead") = false := by
  refine ⟨?_, ?_, ?_, ?_⟩
  · exact verify_reports_failure_as_false.2.2.1 (fun _ _ _ => true) [] [97] [] (by decide)
  · exact verify_reports_failure_as_false.2.2.2.2.2.1 (fun _ _ _ => true) [] (strCodes "0")
      (strCodes "1") (Or.inl (by decide))
  · exact verify_reports_failure_as_false.2.2.2.2.2.2.1 (fun _ _ _ => true) [] (strCodes "11")
      (strCodes "11111111111111111111111111111111") [0, 0] (List.replicate 32 0) (by decide)
      (by decide) (Or.inr (by decide))
  · exact verify_reports_failure_as_false.2.2.2.2.2.2.2 (fun _ _ => .error "could not recover")
      [] [] (strCodes "0xdead") "could not recover" rfl

/-! ### C7: `signSolanaMessage` key-length contract -/

/-- C7.  When the private key string base58-decodes, `signSolanaMessage` raises
the invalid-key-length error exactly when the decoded key is not 64 bytes, and
for a 64-byte key it returns the base58 encoding of the detached signature
produced by the Ed25519 primitive over the UTF-8 message bytes (`naclSign`
models `nacl.sign.detached`, whose detached signatures are 64 bytes). -/
theorem signSolanaMessage_key_length (naclSign : List Nat → List Nat → List Nat)
    (messageBytes privateKeyBase58 keyBytes : List Nat)
    (hdec : bs58Decode privateKeyBase58 = some keyBytes) :
    (signSolanaMessage naclSign messageBytes privateKeyBase58 =
        .error invalidSolanaKeyLengthMsg ↔ keyBytes.length ≠ 64) ∧
    (keyBytes.length = 64 →
      signSolanaMessage naclSign messageBytes privateKeyBase58 =
        .ok (bs58Encode (naclSign messageBytes keyBytes))) := by
  constructor
  · constructor
    · intro h
      intro hlen
      rw [signSolanaMessage, hdec] at h
      simp [hlen] at h
    · intro hlen
      rw [signSolanaMessage, hdec]
      simp [hlen]
  · intro hlen
    rw [signSolanaMessage, hdec]
    simp [hlen]

set_option maxRecDepth 4096 in
/-- Witness for C7: a 64-byte key signs, and the theorem's error
characterization applies to it. -/
theorem signSolanaMessage_key_length_witness :
    signSolanaMessage (fun _ _ => List.replicate 64 7) []
        (strCodes "1111111111111111111111111111111111111111111111111111111111111111") =
      .ok (bs58Encode (List.replicate 64 7)) :=
  (signSolanaMessage_key_length (fun _ _ => List.replicate 64 7) []
    (strCodes "1111111111111111111111111111111111111111111111111111111111111111")
    (List.replicate 64 0) (by decide)).2 (by decide)

/-! ### Character-level lemmas for the EVM address normalization -/

theorem toLowerCode_hex {c : Nat} (h : isHexCode c = true) :
    isLowerHexCode (toLowerCode c) = true := by
  simp only [isHexCode, decide_eq_true_eq] at h
  simp only [isLowerHexCode, toLowerCode]
  split_ifs with hc <;> simp only [decide_eq_true_eq] <;> omega

theorem toLowerCode_fix {c : Nat} (h : isLowerHexCode c = true) : toLowerCode c = c := by
  simp only [isLowerHexCode, decide_eq_true_eq] at h
  simp only [toLowerCode]
  split_ifs with hc
  · omega
  · rfl

theorem lowerHex_not_upper {c : Nat} (h : isLowerHexCode c = true) : isUpperAF c = false := by
  simp only [isLowerHexCode, decide_eq_true_eq] at h
  simp only [isUpperAF, decide_eq_false_iff_not]
  omega

theorem lowerHex_is_hex {c : Nat} (h : isLowerHexCode c = true) : isHexCode c = true := by
  simp only [isLowerHexCode, decide_eq_true_eq] at h
  simp only [isHexCode, decide_eq_true_eq]
  omega

theorem lowerHex_ne_colon {c : Nat} (h : isLowerHexCode c = true) : c ≠ 58 := by
  simp only [isLowerHexCode, decide_eq_true_eq] at h
  omega

theorem lowerHex_ne_x {c : Nat} (h : isLowerHexCode c = true) : c ≠ 120 := by
  simp only [isLowerHexCode, decide_eq_true_eq] at h
  omega

theorem all_toLowerL_hex {l : List Nat} (h : l.all isHexCode = true) :
    (toLowerL l).all isLowerHexCode = true := by
  rw [List.all_eq_true] at h ⊢
  intro x hx
  rw [toLowerL, List.mem_map] at hx
  obtain ⟨d, hd, rfl⟩ := hx
  exact toLowerCode_hex (h d hd)

theorem toLowerL_fix {l : List Nat} (h : l.all isLowerHexCode = true) : toLowerL l = l := by
  rw [List.all_eq_true] at h
  induction l with
  | nil => rfl
  | cons c r ih =>
    rw [toLowerL, List.map_cons]
    rw [toLowerCode_fix (h c (by simp))]
    have hr := ih (fun x hx => h x (by simp [hx]))
    rw [toLowerL] at hr
    rw [hr]

theorem all_lower_no_upper {l : List Nat} (h : l.all isLowerHexCode = true) :
    l.any isUpperAF = false := by
  rw [List.all_eq_true] at h
  rw [List.any_eq_false]
  intro x hx
  simp [lowerHex_not_upper (h x hx)]

theorem all_lower_all_hex {l : List Nat} (h : l.all isLowerHexCode = true) :
    l.all isHexCode = true := by
  rw [List.all_eq_true] at h ⊢
  intro x hx
  exact lowerHex_is_hex (h x hx)

theorem all_lower_noColon {l : List Nat} (h : l.all isLowerHexCode = true) :
    noColon l = true := by
  rw [List.all_eq_true] at h
  rw [noColon, List.all_eq_true]
  intro x hx
  simp only [decide_eq_true_eq]
  exact lowerHex_ne_colon (h x hx)

theorem take2_shape {l : List Nat} (h : l.take 2 = [48, 120]) :
    l = 48 :: 120 :: l.drop 2 := by
  cases l with
  | nil => simp at h
  | cons a t =>
    cases t with
    | nil => simp at h
    | cons b r =>
      simp only [List.take, List.cons.injEq] at h
      obtain ⟨rfl, rfl, -⟩ := h
      rfl

theorem normalizeEvmAddress_shape {checksumOk : List Nat → Bool} {addr : List Nat}
    (h : isAddress checksumOk addr = true) :
    ∃ body, normalizeEvmAddress addr = 48 :: 120 :: body ∧ body.length = 40 ∧
      body.all isLowerHexCode = true := by
  have t48 : toLowerCode 48 = 48 := by decide
  have t120 : toLowerCode 120 = 120 := by decide
  have s0x : strCodes "0x" = [48, 120] := by decide
  have hm : matchesHex40 addr = true := by
    by_cases hm : matchesHex40 addr
    · exact hm
    · simp [isAddress, hm] at h
  by_cases ht : addr.take 2 = [48, 120]
  · rw [matchesHex40, if_pos ht] at hm
    simp only [Bool.and_eq_true, beq_iff_eq] at hm
    refine ⟨toLowerL (addr.drop 2), ?_, by simpa [toLowerL] using hm.1, all_toLowerL_hex hm.2⟩
    have hlow : toLowerL addr = 48 :: 120 :: toLowerL (addr.drop 2) := by
      conv_lhs => rw [take2_shape ht]
      simp [toLowerL, t48, t120]
    rw [normalizeEvmAddress, s0x, hlow]
    simp [jsStartsWith]
  · rw [matchesHex40, if_neg ht] at hm
    simp only [Bool.and_eq_true, beq_iff_eq] at hm
    obtain ⟨h40, hall⟩ := hm
    cases addr with
    | nil => simp at h40
    | cons c1 t =>
      cases t with
      | nil => simp at h40
      | cons c2 r =>
        have hc2 : isHexCode c2 = true := by
          rw [List.all_eq_true] at hall
          exact hall c2 (by simp)
        have hne : toLowerCode c2 ≠ 120 := lowerHex_ne_x (toLowerCode_hex hc2)
        have hne' : (120 == toLowerCode c2) = false := by
          simp only [beq_eq_false_iff_ne, ne_eq]
          exact fun hx => hne hx.symm
        refine ⟨toLowerL (c1 :: c2 :: r), ?_, by simpa [toLowerL] using h40,
          all_toLowerL_hex hall⟩
        have hsw : jsStartsWith [48, 120] (toLowerL (c1 :: c2 :: r)) = false := by
          simp [toLowerL, jsStartsWith, hne']
        rw [normalizeEvmAddress, s0x]
        simp [hsw]

theorem normalized_isAddress (checksumOk2 : List Nat → Bool) {body : List Nat}
    (hlen : body.length = 40) (hall : body.all isLowerHexCode = true) :
    isAddress checksumOk2 (48 :: 120 :: body) = true := by
  have u48 : isUpperAF 48 = false := by decide
  have u120 : isUpperAF 120 = false := by decide
  have hm : matchesHex40 (48 :: 120 :: body) = true := by
    rw [matchesHex40, if_pos (by simp [List.take])]
    simp [List.drop, hlen, all_lower_all_hex hall]
  have hmx : mixedCaseHex (48 :: 120 :: body) = false := by
    rw [mixedCaseHex]
    have h1 : (48 :: 120 :: body).any isUpperAF = false := by
      simp [List.any_cons, u48, u120, all_lower_no_upper hall]
    simp [h1]
  rw [isAddress]
  simp [hm, hmx]

theorem normalized_toLower_fix {body : List Nat} (hall : body.all isLowerHexCode = true) :
    toLowerL (48 :: 120 :: body) = 48 :: 120 :: body := by
  have t48 : toLowerCode 48 = 48 := by decide
  have t120 : toLowerCode 120 = 120 := by decide
  rw [toLowerL, List.map_cons, List.map_cons, t48, t120]
  have hr := toLowerL_fix hall
  rw [toLowerL] at hr
  rw [hr]

theorem normalized_noColon {body : List Nat} (hall : body.all isLowerHexCode = true) :
    noColon (48 :: 120 :: body) = true := by
  have hb := all_lower_noColon hall
  rw [noColon, List.all_eq_true] at hb
  rw [noColon, List.all_eq_true]
  intro x hx
  simp only [List.mem_cons] at hx
  rcases hx with rfl | rfl | hx
  · decide
  · decide
  · exact hb x hx

/-! ### Computation of `didToAddress` on the DIDs built by `addressToEthrDid` -/

theorem splitColon_didEthr3 {n : List Nat} (hn : noColon n = true) :
    splitColon (didEthrTag ++ n) = [[100, 105, 100], [101, 116, 104, 114], n] := by
  have h1 : didEthrTag ++ n =
      [100, 105, 100] ++ 58 :: ([101, 116, 104, 114] ++ 58 :: n) := by
    rw [didEthrTag_eq]
    simp
  rw [h1, splitColon_field _ (by decide), splitColon_field _ (by decide),
    splitColon_noColon hn]

theorem didToAddress_ethr3 {n : List Nat} (hn : noColon n = true) :
    didToAddress (didEthrTag ++ n) = .ok (toLowerL n) := by
  have hpre := jsStartsWith_self_append didEthrTag n
  simp [didToAddress, hpre, splitColon_didEthr3 hn, List.getD]

theorem splitColon_didEthr4 {seg n : List Nat} (hseg : noColon seg = true)
    (hn : noColon n = true) :
    splitColon (didEthrTag ++ (seg ++ 58 :: n)) =
      [[100, 105, 100], [101, 116, 104, 114], seg, n] := by
  have h1 : didEthrTag ++ (seg ++ 58 :: n) =
      [100, 105, 100] ++ 58 :: ([101, 116, 104, 114] ++ 58 :: (seg ++ 58 :: n)) := by
    rw [didEthrTag_eq]
    simp
  rw [h1, splitColon_field _ (by decide), splitColon_field _ (by decide),
    splitColon_field _ hseg, splitColon_noColon hn]

theorem didToAddress_ethr4 {seg n : List Nat} (hseg : noColon seg = true)
    (hn : noColon n = true) :
    didToAddress (didEthrTag ++ (seg ++ 58 :: n)) = .ok (toLowerL n) := by
  have hpre := jsStartsWith_self_append didEthrTag (seg ++ 58 :: n)
  simp [didToAddress, hpre, splitColon_didEthr4 hseg hn, List.getD]

theorem hexDigitCode_lower {d : Nat} (hd : d < 16) : isLowerHexCode (hexDigitCode d) = true := by
  simp only [hexDigitCode, isLowerHexCode]
  split_ifs with h <;> simp only [decide_eq_true_eq] <;> omega

theorem natToHexAux_lower (fuel n : Nat) : (natToHexAux fuel n).all isLowerHexCode = true := by
  induction fuel generalizing n with
  | zero => rfl
  | succ f ih =>
    rw [natToHexAux]
    split_ifs with h
    · rfl
    · rw [List.all_append]
      simp [ih, hexDigitCode_lower (Nat.mod_lt n (by decide))]

theorem natToHexCodes_lower (n : Nat) : (natToHexCodes n).all isLowerHexCode = true := by
  rw [natToHexCodes]
  split_ifs with h
  · decide
  · exact natToHexAux_lower n n

theorem hexChainId_num_noColon (n : Nat) : noColon (hexChainIdCodes (.num n)) = true := by
  rw [hexChainIdCodes]
  have hb := all_lower_noColon (natToHexCodes_lower n)
  rw [noColon, List.all_eq_true] at hb
  rw [noColon, List.all_eq_true]
  intro x hx
  simp only [List.mem_cons] at hx
  rcases hx with rfl | rfl | hx
  · decide
  · decide
  · exact hb x hx

/-! ### C5: `didToAddress ∘ addressToEthrDid` round trip -/

/-- C5.  For every valid EVM address, `didToAddress` applied to the DID built
by `addressToEthrDid` returns the address lower-cased with its `0x` prefix
(that is exactly `normalizeEvmAddress`): with no chainId/network the DID has
three segments, and with an explicit non-mainnet chainId or network — the
inserted segment being colon-free, which is what makes the DID four-segment —
it has four. -/
theorem addressToEthrDid_didToAddress_roundtrip (checksumOk : List Nat → Bool)
    (addr : List Nat) (haddr : isAddress checksumOk addr = true) :
    ((addressToEthrDid checksumOk addr none none).bind didToAddress =
        .ok (normalizeEvmAddress addr)) ∧
    (∀ nw : List Nat, networkCond (some nw) = true → noColon nw = true →
      (addressToEthrDid checksumOk addr none (some nw)).bind didToAddress =
        .ok (normalizeEvmAddress addr)) ∧
    (∀ cid : EvmChainId, chainIdCond (some cid) = true →
      noColon (hexChainIdCodes cid) = true →
      (addressToEthrDid checksumOk addr (some cid) none).bind didToAddress =
        .ok (normalizeEvmAddress addr)) := by
  obtain ⟨body, hshape, hlen, hall⟩ := normalizeEvmAddress_shape haddr
  have hvalid : isAddress checksumOk (normalizeEvmAddress addr) = true := by
    rw [hshape]
    exact normalized_isAddress checksumOk hlen hall
  have hnc : noColon (normalizeEvmAddress addr) = true := by
    rw [hshape]
    exact normalized_noColon hall
  have hfix : toLowerL (normalizeEvmAddress addr) = normalizeEvmAddress addr := by
    rw [hshape]
    exact normalized_toLower_fix hall
  refine ⟨?_, ?_, ?_⟩
  · simp [addressToEthrDid, hvalid, networkCond, chainIdCond, Except.bind,
      didToAddress_ethr3 hnc, hfix]
  · intro nw hnw hncnw
    simp [addressToEthrDid, hvalid, hnw, Except.bind, didToAddress_ethr4 hncnw hnc, hfix]
  · intro cid hcid hnccid
    simp [addressToEthrDid, hvalid, networkCond, hcid, Except.bind,
      didToAddress_ethr4 hnccid hnc, hfix]

/-- Witness for C5 at a concrete mixed-case address, with a network segment and
with a numeric chain id. -/
theorem addressToEthrDid_didToAddress_roundtrip_witness :
    ((addressToEthrDid (fun _ => true)
        (strCodes "0xABCDEFabcdef0123456789ABCDEFabcdef012345") none none).bind didToAddress =
      .ok (normalizeEvmAddress (strCodes "0xABCDEFabcdef0123456789ABCDEFabcdef012345"))) ∧
    ((addressToEthrDid (fun _ => true)
        (strCodes "0xABCDEFabcdef0123456789ABCDEFabcdef012345") none
        (some (strCodes "sepolia"))).bind didToAddress =
      .ok (normalizeEvmAddress (strCodes "0xABCDEFabcdef0123456789ABCDEFabcdef012345"))) ∧
    ((addressToEthrDid (fun _ => true)
        (strCodes "0xABCDEFabcdef0123456789ABCDEFabcdef012345")
        (some (EvmChainId.num 137)) none).bind didToAddress =
      .ok (normalizeEvmAddress (strCodes "0xABCDEFabcdef0123456789ABCDEFabcdef012345"))) := by
  have h := addressToEthrDid_didToAddress_roundtrip (fun _ => true)
    (strCodes "0xABCDEFabcdef0123456789ABCDEFabcdef012345") (by decide)
  exact ⟨h.1, h.2.1 (strCodes "sepolia") (by decide) (by decide),
    h.2.2 (EvmChainId.num 137) (by decide) (by decide)⟩
